import Mathlib

/-!
Verification development for the portfolio chat backend
(`src/backend/app.py`): a Flask app with a keyword-based responder
(`get_fallback_response`), a chat endpoint (`chat`) writing two rows per
exchange through one PostgreSQL transaction, and a transcript endpoint
(`get_history`) reading rows ordered by `created_at`.

Modelling choices, stated once here:
* Strings are lists of Unicode codepoints (`Str := List Nat`).
  Python `str.lower()` is modelled on the ASCII range (the only range the
  keyword tables exercise); Python `needle in text` is substring
  containment (`containsSub`); Python `str.strip()` removes leading and
  trailing ASCII whitespace.
* The database connection is modelled transactionally, following
  psycopg2 defaults (autocommit off): `cur.execute(INSERT ...)` appends
  to an uncommitted `pending` list, `db.commit()` moves `pending` into
  `committed`, and an exception before commit discards `pending`
  (rollback on connection teardown).  The SERIAL id sequence advances on
  successful inserts.  A `fail` flag on an insert models a storage
  failure (connection loss), which raises and aborts the request.
* `SELECT ... WHERE session_id = %s ORDER BY created_at ASC` carries no
  secondary sort key, and PostgreSQL leaves the order of rows that are
  equal under all `ORDER BY` expressions implementation-dependent.  The
  query's guarantee is therefore the relation `selectResult`: a result is
  any permutation of the session's rows that is non-decreasing in
  `created_at`.  The function `historyRows` behind `get_history` picks
  one admissible execution (a stable sort of the rows in insertion
  order) and is relied on only where the choice among admissible
  executions cannot matter.
-/

/-- Unicode codepoint string, the model of Python `str`. -/
abbrev Str := List Nat

/-- Codepoints of a Lean string literal. -/
def String.codes (s : String) : Str := s.data.map Char.toNat

/-- Python `str.lower()` on one codepoint, ASCII range. -/
def lowerChar (n : Nat) : Nat := if 65 ≤ n ∧ n ≤ 90 then n + 32 else n

/-- Python `str.lower()`. -/
def lowerStr (s : Str) : Str := s.map lowerChar

/-- Boolean prefix test on codepoint strings. -/
def isPrefixN : Str → Str → Bool
  | [], _ => true
  | _ :: _, [] => false
  | a :: as, b :: bs => a == b && isPrefixN as bs

/-- Python substring operator `needle in text`. -/
def containsSub (needle : Str) : Str → Bool
  | [] => isPrefixN needle []
  | b :: bs => isPrefixN needle (b :: bs) || containsSub needle bs

/-- ASCII whitespace, as recognised by Python `str.strip()`. -/
def isSpaceChar (n : Nat) : Bool :=
  n == 32 || n == 9 || n == 10 || n == 13 || n == 11 || n == 12

/-- Python `str.strip()`: drop leading and trailing whitespace. -/
def stripS (s : Str) : Str :=
  ((s.dropWhile isSpaceChar).reverse.dropWhile isSpaceChar).reverse

/-! Keyword tables and canned replies of `get_fallback_response`
(`app.py` lines 54-84).  Apostrophes are written as `\x27`. -/

def kwEye : Str := "eye".codes
def kwGuard : Str := "guard".codes
def kwVision : Str := "vision".codes
def kwCv : Str := "cv".codes
def kwAi : Str := "ai".codes
def kwFramework : Str := "framework".codes
def kwTelegram : Str := "telegram".codes
def kwBot : Str := "bot".codes
def kwGeneral : Str := "general".codes
def kwShop : Str := "shop".codes
def kwFood : Str := "food".codes
def kwScraper : Str := "scraper".codes
def kwScraping : Str := "scraping".codes
def kwTexno : Str := "texno".codes
def kwData : Str := "data".codes
def kwSkills : Str := "skills".codes
def kwTech : Str := "tech".codes

def replyEyeGuard : Str :=
  "EyeGuard AI is one of my standout projects. It uses OpenCV for real-time eye state detection to help prevent driver fatigue.".codes

def replyFramework : Str :=
  "I\x27ve developed a core Telegram Bot Framework on GitHub that serves as a modular foundation for building scalable, command-driven automations.".codes

def replyBots : Str :=
  "I\x27m an expert in aiogram. My bots include a Multilingual Food Ordering bot, a Texnomart Shop bot, and a specialized Clash utility bot.".codes

def replyScraper : Str :=
  "The Texno Scraper project demonstrates high-performance web scraping using BeautifulSoup to extract tech product data efficiently.".codes

def replySkills : Str :=
  "Technical Stack: Python, PostgreSQL, OpenCV (AI), aiogram (Bots), Next.js, and Backend Architecture.".codes

def replyDefault : Str :=
  "I\x27m ExoBot! I can tell you about EyeGuard AI, my Telegram Bot Framework, or my web scraping tools. What interests you?".codes

/-- `get_fallback_response` (`app.py` lines 54-84): lower-case the input,
then evaluate the ordered keyword categories, first match winning. -/
def get_fallback_response (user_input : Str) : Str :=
  let text := lowerStr user_input
  if [kwEye, kwGuard, kwVision, kwCv, kwAi].any (fun w => containsSub w text) then
    replyEyeGuard
  else if containsSub kwFramework text ||
      (containsSub kwTelegram text && containsSub kwBot text && containsSub kwGeneral text) then
    replyFramework
  else if [kwBot, kwTelegram, kwShop, kwFood].any (fun w => containsSub w text) then
    replyBots
  else if [kwScraper, kwScraping, kwTexno, kwData].any (fun w => containsSub w text) then
    replyScraper
  else if containsSub kwSkills text || containsSub kwTech text then
    replySkills
  else
    replyDefault

/-- One row of the `chat_messages` table. -/
structure Turn where
  id : Nat
  session_id : Str
  role : Str
  content : Str
  created_at : Nat
deriving DecidableEq, Repr

/-- State of the PostgreSQL connection: committed (durable) rows in
insertion order, rows of the current uncommitted transaction, and the
SERIAL id sequence. -/
structure PG where
  committed : List Turn
  pending : List Turn
  nextId : Nat
deriving DecidableEq, Repr

def roleUser : Str := "user".codes
def roleAssistant : Str := "assistant".codes
def anonId : Str := "anonymous".codes
def errEmpty : Str := "Message is empty".codes

/-- `cur.execute(INSERT INTO chat_messages ...)`: enforces the schema
CHECK on `role`, assigns the SERIAL id and the insertion timestamp `now`,
and adds the row to the open transaction.  `fail = true` models a storage
failure (the statement raises, `none`). -/
def pgInsert (s : PG) (fail : Bool) (now : Nat) (sid rl content : Str) : Option PG :=
  if fail then none
  else if rl == roleUser || rl == roleAssistant then
    some ⟨s.committed, s.pending ++ [⟨s.nextId, sid, rl, content, now⟩], s.nextId + 1⟩
  else none

/-- `db.commit()`: the open transaction becomes durable. -/
def pgCommit (s : PG) : PG := ⟨s.committed ++ s.pending, [], s.nextId⟩

/-- Transaction rollback on connection teardown after an exception:
uncommitted rows are discarded. -/
def pgRollback (s : PG) : PG := ⟨s.committed, [], s.nextId⟩

/-- JSON body of `POST /api/chat`; absent fields are `none`
(`data.get('message', '')`, `data.get('session_id', 'anonymous')`). -/
structure ChatReq where
  message : Option Str
  session_id : Option Str

/-- Outcome of the chat handler: HTTP 200 with `response` and
`session_id`, HTTP 400 with `error`, or an unhandled exception
(HTTP 500). -/
inductive ChatResp where
  | ok (response : Str) (session_id : Str)
  | badRequest (error : Str)
  | serverError
deriving DecidableEq, Repr

/-- The `chat` handler (`app.py` lines 94-128).  `t1`, `t2` are the
database timestamps assigned to the two inserts; `fail1`, `fail2` are the
storage-failure oracles of the two inserts. -/
def chat (s : PG) (fail1 fail2 : Bool) (t1 t2 : Nat) (req : ChatReq) : PG × ChatResp :=
  let user_message := stripS (req.message.getD [])
  let session_id := req.session_id.getD anonId
  if user_message.isEmpty then
    (s, .badRequest errEmpty)
  else
    match pgInsert s fail1 t1 session_id roleUser user_message with
    | none => (pgRollback s, .serverError)
    | some s1 =>
      let bot_response := get_fallback_response user_message
      match pgInsert s1 fail2 t2 session_id roleAssistant bot_response with
      | none => (pgRollback s1, .serverError)
      | some s2 => (pgCommit s2, .ok bot_response session_id)

/-- Comparison used by `ORDER BY created_at ASC`. -/
def leCreated (a b : Turn) : Bool := decide (a.created_at ≤ b.created_at)

/-- The guarantee of
`SELECT ... WHERE session_id = %s ORDER BY created_at ASC`
(`app.py` line 137): a row list is an admissible result of the query
exactly when it is a permutation of the session's rows that is
non-decreasing in `created_at`.  The query has no secondary sort key, so
which admissible result PostgreSQL returns — in particular the relative
order of rows with equal `created_at` — is implementation-dependent. -/
def selectResult (s : PG) (sid : Str) (out : List Turn) : Prop :=
  out.Perm (s.committed.filter (fun r => r.session_id == sid)) ∧
  out.Pairwise (fun x y => x.created_at ≤ y.created_at)

/-- One admissible execution of the query: the session's rows, in
insertion order, stably sorted by `created_at`.  Used only where the
choice among admissible executions cannot matter. -/
def historyRows (s : PG) (sid : Str) : List Turn :=
  (s.committed.filter (fun r => r.session_id == sid)).mergeSort leCreated

/-- One record of the `GET /api/messages/<session_id>` response
(`SELECT role, content, created_at`). -/
structure Msg where
  role : Str
  content : Str
  created_at : Nat
deriving DecidableEq, Repr

/-- The `get_history` handler (`app.py` lines 131-142). -/
def get_history (s : PG) (sid : Str) : List Msg :=
  (historyRows s sid).map (fun r => ⟨r.role, r.content, r.created_at⟩)

/-- `get_history` with its HTTP status: `jsonify(messages)` always
answers 200. -/
def history_endpoint (s : PG) (sid : Str) : Nat × List Msg :=
  (200, get_history s sid)

/-- A sequence of chat exchanges on one session: each step runs the
`chat` handler with the given message and the two insert timestamps,
with storage healthy. -/
def runChats (sid : Str) : PG → List (Str × Nat × Nat) → PG
  | s, [] => s
  | s, (m, a, b) :: rest => runChats sid (chat s false false a b ⟨some m, some sid⟩).1 rest

/-! Concrete inputs used by witnesses and counterexamples. -/

def msgHi : Str := "hi".codes
def msgChair : Str := "chair".codes
def msgMain : Str := "main".codes
def msgThey : Str := "they".codes
def msgSpaces : Str := "   ".codes
def msgAiSkills : Str := "AI skills".codes
def sidA : Str := "alice".codes
def sidB : Str := "bob".codes
def reqHi : ChatReq := ⟨some msgHi, none⟩
def reqHiA : ChatReq := ⟨some msgHi, some sidA⟩
def reqSpaces : ChatReq := ⟨some msgSpaces, none⟩
def pgEmpty : PG := ⟨[], [], 0⟩

/-- The user turn of a finished exchange whose two rows carry the same
`created_at` timestamp. -/
def turnU5 : Turn := ⟨1, sidA, roleUser, msgHi, 5⟩

/-- The assistant turn paired with `turnU5`, same timestamp, next id. -/
def turnA5 : Turn := ⟨2, sidA, roleAssistant, replyDefault, 5⟩

/-- A store holding one finished exchange of session `sidA` whose two rows
carry the same `created_at` timestamp — the normal case, since both
INSERTs of an exchange run in one transaction and PostgreSQL's
`CURRENT_TIMESTAMP` is transaction-start time. -/
def pgTie : PG := ⟨[turnU5, turnA5], [], 3⟩

/-- The expected role column after `n` chat exchanges. -/
def altRoles : Nat → List Str
  | 0 => []
  | n + 1 => roleUser :: roleAssistant :: altRoles n

/-- A single exchange whose two inserts carry one shared timestamp, as
they do in the real program (one transaction). -/
def reqsTie : List (Str × Nat × Nat) := [(msgHi, 0, 0)]

/-- The user turn that running `reqsTie` on the empty store commits. -/
def turnHiU : Turn := ⟨0, sidA, roleUser, msgHi, 0⟩

/-- The assistant turn that running `reqsTie` on the empty store
commits. -/
def turnHiA : Turn := ⟨1, sidA, roleAssistant, replyDefault, 0⟩

/-! Helper lemmas. -/

/-- Every canned reply is a non-empty string. -/
lemma fallback_ne_nil (t : Str) : get_fallback_response t ≠ [] := by
  simp only [get_fallback_response]
  repeat' split
  all_goals decide

/-- ASCII lower-casing is idempotent on a codepoint. -/
lemma lowerChar_idem (n : Nat) : lowerChar (lowerChar n) = lowerChar n := by
  unfold lowerChar
  by_cases h : 65 ≤ n ∧ n ≤ 90
  · rw [if_pos h, if_neg (by omega)]
  · rw [if_neg h, if_neg h]

/-- Lower-casing a string twice is the same as doing it once. -/
lemma lowerStr_idem (t : Str) : lowerStr (lowerStr t) = lowerStr t := by
  simp [lowerStr, List.map_map, Function.comp_def, lowerChar_idem]

/-- A keyword starting with a non-whitespace codepoint never occurs in a
whitespace-only string. -/
lemma containsSub_cons_space {a : Nat} {w t : Str} (ha : isSpaceChar a = false)
    (h : ∀ c ∈ t, isSpaceChar c = true) : containsSub (a :: w) t = false := by
  induction t with
  | nil => rfl
  | cons c cs ih =>
    have hc : isSpaceChar c = true := h c (List.mem_cons_self c cs)
    have hac : (a == c) = false := by
      rw [beq_eq_false_iff_ne]
      intro e
      rw [e, hc] at ha
      exact Bool.true_eq_false.mp ha
    simp [containsSub, isPrefixN, hac, ih (fun x hx => h x (List.mem_cons_of_mem c hx))]

/-- Packaging of the previous lemma for a concrete keyword, with the
side conditions decidable. -/
lemma keyword_not_in_space {w t : Str}
    (hw : isSpaceChar (w.headD 33) = false ∧ w ≠ [])
    (h : ∀ c ∈ t, isSpaceChar c = true) : containsSub w t = false := by
  match w with
  | [] => exact absurd rfl hw.2
  | a :: w' => exact containsSub_cons_space (by simpa using hw.1) h

/-- Lower-casing preserves whitespace-only strings. -/
lemma lowerStr_space {t : Str} (h : ∀ c ∈ t, isSpaceChar c = true) :
    ∀ c ∈ lowerStr t, isSpaceChar c = true := by
  intro c hc
  rw [lowerStr, List.mem_map] at hc
  obtain ⟨a, ha, rfl⟩ := hc
  have hsp := h a ha
  have : lowerChar a = a := by
    have : ((((a = 32 ∨ a = 9) ∨ a = 10) ∨ a = 13) ∨ a = 11) ∨ a = 12 := by
      simpa [isSpaceChar] using hsp
    unfold lowerChar
    rw [if_neg (by omega)]
  rw [this]
  exact hsp

/-- Claim C1: for every request whose message is non-empty after
trimming, the chat handler (with storage healthy) returns HTTP 200 with
a non-empty response string and a session id equal to the request's
session id, or to the anonymous sentinel when the request omits it. -/
theorem chat_success_contract (s : PG) (t1 t2 : Nat) (req : ChatReq)
    (h : stripS (req.message.getD []) ≠ []) :
    ∃ resp sidOut,
      (chat s false false t1 t2 req).2 = ChatResp.ok resp sidOut ∧
      resp ≠ [] ∧
      (∀ v, req.session_id = some v → sidOut = v) ∧
      (req.session_id = none → sidOut = anonId) := by
  refine ⟨get_fallback_response (stripS (req.message.getD [])), req.session_id.getD anonId,
    ?_, fallback_ne_nil _, ?_, ?_⟩
  · simp [chat, pgInsert, List.isEmpty_eq_false, h]
  · intro v hv; rw [hv]; rfl
  · intro hv; rw [hv]; rfl

/-- Witness for C1: a concrete request with message but no session id. -/
theorem chat_success_contract_w :
    ∃ resp sidOut,
      (chat pgEmpty false false 0 1 reqHi).2 = ChatResp.ok resp sidOut ∧
      resp ≠ [] ∧
      (∀ v, reqHi.session_id = some v → sidOut = v) ∧
      (reqHi.session_id = none → sidOut = anonId) :=
  chat_success_contract pgEmpty 0 1 reqHi (by decide)

/-- Claim C2: for every request whose message is missing, empty, or all
whitespace after trimming, the chat handler returns HTTP 400 carrying an
error string, and the connection state — in particular the durable
store — is exactly the state before the request. -/
theorem chat_empty_message_rejected (s : PG) (f1 f2 : Bool) (t1 t2 : Nat) (req : ChatReq)
    (h : stripS (req.message.getD []) = []) :
    chat s f1 f2 t1 t2 req = (s, ChatResp.badRequest errEmpty) := by
  simp [chat, h]

/-- Witness for C2: a whitespace-only message is rejected with the store
untouched. -/
theorem chat_empty_message_rejected_w :
    chat pgEmpty true false 0 1 reqSpaces = (pgEmpty, ChatResp.badRequest errEmpty) :=
  chat_empty_message_rejected pgEmpty true false 0 1 reqSpaces (by decide)

/-- Claim C3: the responder is a deterministic pure function, and its
ordered category list makes the first match win: any text triggering
both the first category (eye, guard, vision, cv, ai) and the later
skills category gets the first category's reply. -/
theorem fallback_deterministic_first_match :
    (∀ a b : Str, a = b → get_fallback_response a = get_fallback_response b) ∧
    (∀ t : Str,
      [kwEye, kwGuard, kwVision, kwCv, kwAi].any (fun w => containsSub w (lowerStr t)) = true →
      containsSub kwSkills (lowerStr t) = true →
      get_fallback_response t = replyEyeGuard) := by
  constructor
  · intro a b hab; rw [hab]
  · intro t h1 _h2
    simp [get_fallback_response, h1]

/-- Witness for C3: a message triggering both the first and the skills
category gets the first category's reply. -/
theorem fallback_deterministic_first_match_w :
    get_fallback_response msgAiSkills = get_fallback_response msgAiSkills ∧
    get_fallback_response msgAiSkills = replyEyeGuard :=
  ⟨fallback_deterministic_first_match.1 msgAiSkills msgAiSkills rfl,
   fallback_deterministic_first_match.2 msgAiSkills (by decide) (by decide)⟩

/-- Claim C4: the responder is total and never returns an empty string,
and every whitespace-only input (the empty string included) gets exactly
the default reply. -/
theorem fallback_total_default :
    (∀ t : Str, get_fallback_response t ≠ []) ∧
    (∀ t : Str, (∀ c ∈ t, isSpaceChar c = true) → get_fallback_response t = replyDefault) := by
  refine ⟨fallback_ne_nil, ?_⟩
  intro t ht
  have hk : ∀ w : Str, isSpaceChar (w.headD 33) = false ∧ w ≠ [] →
      containsSub w (lowerStr t) = false :=
    fun w hw => keyword_not_in_space hw (lowerStr_space ht)
  simp [get_fallback_response, hk kwEye (by decide), hk kwGuard (by decide),
    hk kwVision (by decide), hk kwCv (by decide), hk kwAi (by decide),
    hk kwFramework (by decide), hk kwTelegram (by decide), hk kwBot (by decide),
    hk kwGeneral (by decide), hk kwShop (by decide), hk kwFood (by decide),
    hk kwScraper (by decide), hk kwScraping (by decide), hk kwTexno (by decide),
    hk kwData (by decide), hk kwSkills (by decide), hk kwTech (by decide)]

/-- Witness for C4: the three-space string gets a non-empty reply, the
default one. -/
theorem fallback_total_default_w :
    get_fallback_response msgSpaces ≠ [] ∧ get_fallback_response msgSpaces = replyDefault :=
  ⟨fallback_total_default.1 msgSpaces, fallback_total_default.2 msgSpaces (by decide)⟩

/-- Claim C5: the responder is case-insensitive — its value on any text
equals its value on the lower-cased text. -/
theorem fallback_case_insensitive (t : Str) :
    get_fallback_response t = get_fallback_response (lowerStr t) := by
  simp only [get_fallback_response, lowerStr_idem]

/-- Claim C6, code bug: at a store whose two rows of the session share
one `created_at` (the failing input `pgTie`), the query behind
`get_history` admits BOTH row orders — the id-ordered one and the
reversed one — as results, since `ORDER BY created_at ASC` has no
secondary sort key; the reversed result violates the insertion/id-order
tie-break the claim requires, so the code does not guarantee the claimed
stable ordering (it would need ORDER BY created_at, id). -/
theorem history_tie_order_unspecified :
    turnU5.created_at = turnA5.created_at ∧
    turnU5.id < turnA5.id ∧
    selectResult pgTie sidA [turnU5, turnA5] ∧
    selectResult pgTie sidA [turnA5, turnU5] ∧
    ¬ ([turnA5, turnU5].Pairwise (fun x y => x.created_at = y.created_at → x.id < y.id)) := by
  refine ⟨rfl, by decide, ⟨by decide, by decide⟩, ⟨by decide, by decide⟩, by decide⟩

/-- Claim C7, code bug: one successful exchange (`reqsTie`) on a fresh
session commits the user turn and the assistant turn with one shared
timestamp — as in the real program, where both INSERTs run in one
transaction and get the transaction-start `CURRENT_TIMESTAMP` — and the
transcript query then admits the role order assistant, user as a result,
so the code does not guarantee the claimed user, assistant, ...
alternation in timestamp order. -/
theorem transcript_alternation_unspecified :
    (runChats sidA pgEmpty reqsTie).committed = [turnHiU, turnHiA] ∧
    turnHiU.role = roleUser ∧
    turnHiA.role = roleAssistant ∧
    turnHiU.created_at = turnHiA.created_at ∧
    selectResult (runChats sidA pgEmpty reqsTie) sidA [turnHiA, turnHiU] ∧
    [turnHiA, turnHiU].map (fun r => r.role) ≠ altRoles reqsTie.length := by
  refine ⟨by decide, rfl, rfl, rfl, ⟨by decide, by decide⟩, by decide⟩

/-- Counterexample to C8 as stated: on an empty store, the user-turn
insert succeeds and the assistant-turn insert then fails, yet no user
turn is durably persisted — both inserts sit in one transaction that is
never committed, so the request fails and the store stays empty. -/
theorem chat_second_insert_failure_cex :
    pgInsert pgEmpty false 0 anonId roleUser (stripS msgHi) ≠ none ∧
    (chat pgEmpty false true 0 1 reqHi).2 = ChatResp.serverError ∧
    (chat pgEmpty false true 0 1 reqHi).1.committed = [] := by decide

/-- Claim C8 as amended: the two inserts of a chat exchange run in one
transaction committed only after both succeed; when the assistant-turn
insert fails after the user-turn insert succeeded, the transaction rolls
back, the durable store is unchanged — the user turn is NOT durably
persisted — and the request fails with a server error. -/
theorem chat_second_insert_failure_rollback (s : PG) (t1 t2 : Nat) (req : ChatReq)
    (h : stripS (req.message.getD []) ≠ []) :
    (chat s false true t1 t2 req).1.committed = s.committed ∧
    (chat s false true t1 t2 req).2 = ChatResp.serverError := by
  constructor <;> simp [chat, pgInsert, pgRollback, List.isEmpty_eq_false, h]

/-- Witness for amended C8: the concrete failing exchange leaves the
empty store empty. -/
theorem chat_second_insert_failure_rollback_w :
    (chat pgEmpty false true 0 1 reqHi).1.committed = pgEmpty.committed ∧
    (chat pgEmpty false true 0 1 reqHi).2 = ChatResp.serverError :=
  chat_second_insert_failure_rollback pgEmpty 0 1 reqHi (by decide)

/-- Claim C9: transcript retrieval for a session with no stored turns
answers HTTP 200 with an empty array, not an error. -/
theorem history_unknown_session_empty (s : PG) (sid : Str)
    (h : ∀ r ∈ s.committed, r.session_id ≠ sid) :
    history_endpoint s sid = (200, []) := by
  have hf : s.committed.filter (fun r => r.session_id == sid) = [] := by
    rw [List.filter_eq_nil_iff]
    intro r hr
    simpa using h r hr
  simp [history_endpoint, get_history, historyRows, hf]

/-- Witness for C9: a store with another session's rows answers the
unknown session with 200 and an empty list. -/
theorem history_unknown_session_empty_w :
    history_endpoint pgTie sidB = (200, []) :=
  history_unknown_session_empty pgTie sidB (by decide)

/-- Counterexample to C10 as stated: its example word (the input
containing only the word they) contains none of the three substrings
once lower-cased, and the responder gives it the default reply, not the
first category's. -/
theorem fallback_word_substring_cex :
    containsSub kwAi (lowerStr msgThey) = false ∧
    containsSub kwCv (lowerStr msgThey) = false ∧
    containsSub kwEye (lowerStr msgThey) = false ∧
    get_fallback_response msgThey = replyDefault ∧
    get_fallback_response msgThey ≠ replyEyeGuard := by decide

/-- Claim C10 as amended: keyword matching is raw substring containment,
not word-level matching — any input whose lower-cased form contains ai,
cv or eye anywhere, including inside a longer word such as chair or
main, gets the first (EyeGuard) category's reply. -/
theorem fallback_substring_matching :
    (∀ t : Str,
      (containsSub kwAi (lowerStr t) = true ∨ containsSub kwCv (lowerStr t) = true ∨
        containsSub kwEye (lowerStr t) = true) →
      get_fallback_response t = replyEyeGuard) ∧
    get_fallback_response msgChair = replyEyeGuard ∧
    get_fallback_response msgMain = replyEyeGuard := by
  refine ⟨?_, by decide, by decide⟩
  intro t h
  rcases h with h | h | h <;> simp [get_fallback_response, h]

/-- Witness for amended C10: the word chair contains ai and gets the
EyeGuard reply. -/
theorem fallback_substring_matching_w :
    get_fallback_response msgChair = replyEyeGuard :=
  fallback_substring_matching.1 msgChair (Or.inl (by decide))
